import Mathlib

/-!
Shallow embedding of the conversational session engine in
`src/agents/supra_multi.py` (class `ConversationState` and class
`SupraMultiSearchEngine`), together with proofs about its merge, dedup,
exclusion, preservation and termination behaviour.

Python strings are modelled as Lean `String`; Python `needle in hay` is
modelled by `strIn`; `str.lower()` by `pyLower` (ASCII case mapping, which
agrees with Python on the ASCII and Georgian text the program uses);
`str.strip()` by `pyStrip`; a Python list slice `l[:n]` with a possibly
negative bound by `pySliceTo`.  The external generative oracle is a black
box: one call either yields a parsed candidate list (`OracleOutcome.ok`)
or raises / returns unparseable output (`OracleOutcome.fail`), and the
engine is modelled as a function of that outcome.
-/

namespace Supra

/-- Does `hay` start with `needle` (character lists)? -/
def charsStartsWith : List Char → List Char → Bool
  | [], _ => true
  | _ :: _, [] => false
  | c :: cs, d :: ds => c == d && charsStartsWith cs ds

/-- Does `needle` occur contiguously in `hay`?  Matches Python `needle in hay`. -/
def charsContains (needle : List Char) : List Char → Bool
  | [] => needle.isEmpty
  | d :: ds => charsStartsWith needle (d :: ds) || charsContains needle ds

/-- Python `needle in hay` on strings. -/
def strIn (needle hay : String) : Bool :=
  charsContains needle.data hay.data

/-- Python `s.lower()` restricted to ASCII case mapping. -/
def pyLower (s : String) : String :=
  String.mk (s.data.map Char.toLower)

/-- Python `s.strip()`: drop leading and trailing whitespace. -/
def pyStrip (s : String) : String :=
  String.mk (((s.data.dropWhile Char.isWhitespace).reverse.dropWhile Char.isWhitespace).reverse)

/-- Python `l[:n]` where `n` may be negative (a negative bound counts from
the end of the list, clamping at the start). -/
def pySliceTo {α : Type} (l : List α) (n : Int) : List α :=
  if 0 ≤ n then l.take n.toNat else l.take (l.length - (-n).toNat)

/-- A dish record, as produced by the data file and by the oracle
(`restaurant_id`, `restaurant_name`, `dish_name`, `dish_price`, `reason`,
`status`).  A candidate without a `"status"` field is modelled by any
`status` string other than `"preserved"`. -/
structure Item where
  restaurant_id : String
  restaurant_name : String
  dish_name : String
  dish_price : Int
  reason : String
  status : String
deriving DecidableEq, Repr

/-- The identity key `f"{restaurant_name}_{dish_name}"` used by
`exclude_dish`, `like_dish`, `add_assistant_message` and
`_remove_duplicates`. -/
def dishKey (r : Item) : String :=
  r.restaurant_name ++ "_" ++ r.dish_name

/-- One entry of `conversation_history`. -/
inductive ChatMsg where
  | user (content : String) (msgType : String) (turn : Nat)
  | assistant (content : List Item) (turn : Nat)
deriving DecidableEq, Repr

/-- The fields of Python class `ConversationState`. -/
structure ConversationState where
  conversation_history : List ChatMsg
  current_results : List Item
  excluded_dishes : List String
  liked_dishes : List Item
  all_suggested_dishes : List String
  user_preferences : String
  initial_query : String
  turn_count : Nat
  is_satisfied : Bool
deriving DecidableEq, Repr

/-- `ConversationState.__init__`. -/
def initialState : ConversationState :=
  { conversation_history := []
    current_results := []
    excluded_dishes := []
    liked_dishes := []
    all_suggested_dishes := []
    user_preferences := ""
    initial_query := ""
    turn_count := 0
    is_satisfied := false }

/-- `ConversationState.add_user_message`. -/
def add_user_message (s : ConversationState) (message : String) (msgType : String) :
    ConversationState :=
  { s with conversation_history :=
      s.conversation_history ++ [ChatMsg.user message msgType s.turn_count] }

/-- `ConversationState.add_assistant_message`: record the turn, replace
`current_results`, and append each not-yet-seen key to
`all_suggested_dishes`. -/
def add_assistant_message (s : ConversationState) (results : List Item) :
    ConversationState :=
  { s with
    conversation_history :=
      s.conversation_history ++ [ChatMsg.assistant results s.turn_count]
    current_results := results
    all_suggested_dishes :=
      results.foldl
        (fun acc r => if dishKey r ∈ acc then acc else acc ++ [dishKey r])
        s.all_suggested_dishes }

/-- `ConversationState.exclude_dish`. -/
def exclude_dish (s : ConversationState) (dish_name restaurant_name : String) :
    ConversationState :=
  let dish_key := restaurant_name ++ "_" ++ dish_name
  if dish_key ∈ s.excluded_dishes then s
  else { s with excluded_dishes := s.excluded_dishes ++ [dish_key] }

/-- `ConversationState.like_dish`. -/
def like_dish (s : ConversationState) (d : Item) : ConversationState :=
  if dishKey d ∈ s.liked_dishes.map dishKey then s
  else { s with liked_dishes := s.liked_dishes ++ [d] }

/-- The hard-coded English-term to Georgian-term table of
`preserve_dishes_by_keyword`. -/
def dish_mappings : List (String × List String) :=
  [("khachapuri", ["ხაჭაპური"]),
   ("khachapuris", ["ხაჭაპური"]),
   ("khinkali", ["ხინკალი"]),
   ("lobio", ["ლობიო"]),
   ("ostri", ["ოსტრი"]),
   ("pkhali", ["ფხალი"]),
   ("badrijani", ["ბადრიჯანი"]),
   ("cheese", ["ყველი"]),
   ("soup", ["სუპი"]),
   ("salad", ["სალათი"]),
   ("meat", ["ხორცი", "საქონლის", "ღორის"]),
   ("beef", ["საქონლის"]),
   ("pork", ["ღორის"]),
   ("vegetarian", ["ვეგეტარიანული"])]

/-- The preserve trigger words of `preserve_dishes_by_keyword`. -/
def preserve_keywords : List String :=
  ["preserve", "keep", "save", "maintain"]

/-- The preserve-everything phrases of `preserve_dishes_by_keyword`. -/
def preserve_all_phrases : List String :=
  ["preserve all", "keep all", "save all", "preserve everything"]

/-- Inner loop of `preserve_dishes_by_keyword`: like every current result
whose dish name contains one of the Georgian terms of a table row (the
source breaks out of the Georgian-term loop after the first hit, so each
dish is liked at most once per row). -/
def preserve_matching (georgian_terms : List String) (s : ConversationState) :
    ConversationState :=
  s.current_results.foldl
    (fun acc r =>
      if georgian_terms.any (fun g => strIn g r.dish_name) then like_dish acc r
      else acc)
    s

/-- One row of the mapping table in `preserve_dishes_by_keyword`. -/
def preserve_for_mapping (feedback_lower : String) (s : ConversationState)
    (m : String × List String) : ConversationState :=
  if strIn m.1 feedback_lower then preserve_matching m.2 s else s

/-- One trigger word in `preserve_dishes_by_keyword`. -/
def preserve_for_keyword (feedback_lower : String) (s : ConversationState)
    (pw : String) : ConversationState :=
  if strIn pw feedback_lower then
    dish_mappings.foldl (preserve_for_mapping feedback_lower) s
  else s

/-- `ConversationState.preserve_dishes_by_keyword`: for every trigger word
present in the lowercased feedback, scan the mapping table and
`like_dish` the matching current results; afterwards, a
preserve-everything phrase likes every current result. -/
def preserve_dishes_by_keyword (s : ConversationState) (feedback : String) :
    ConversationState :=
  let feedback_lower := pyLower feedback
  let s1 := preserve_keywords.foldl (preserve_for_keyword feedback_lower) s
  if preserve_all_phrases.any (fun w => strIn w feedback_lower) then
    s1.current_results.foldl (fun acc r => like_dish acc r) s1
  else s1

/-- The positive indicator phrases of `_process_feedback`. -/
def positive_indicators : List String :=
  ["like this", "love this", "good", "great", "want this", "yes"]

/-- The negative indicator phrases of `_process_feedback`. -/
def negative_indicators : List String :=
  ["don\x27t like", "not interested", "remove", "replace", "hate", "dislike", "no"]

/-- Is the dish at 1-based position `i` referenced in the feedback
(`"#i"`, `"item i"` or `"number i"`)? -/
def mentionsPosition (i : Nat) (feedback_lower : String) : Bool :=
  strIn ("#" ++ toString i) feedback_lower
    || strIn ("item " ++ toString i) feedback_lower
    || strIn ("number " ++ toString i) feedback_lower

/-- Body of the per-dish loop of `_process_feedback`: a dish referenced by
1-based position is liked when a positive indicator is present in the
feedback and excluded when a negative indicator is present (the source
breaks each indicator loop after the first hit, so each action fires at
most once). -/
def feedback_for_dish (crs : List Item) (feedback_lower : String)
    (acc : ConversationState) (r : Item) : ConversationState :=
  let dish_mentioned := crs.enum.any
    (fun p => p.2 == r && mentionsPosition (p.1 + 1) feedback_lower)
  if dish_mentioned then
    let acc1 := if positive_indicators.any (fun ind => strIn ind feedback_lower)
      then like_dish acc r else acc
    if negative_indicators.any (fun ind => strIn ind feedback_lower)
      then exclude_dish acc1 r.dish_name r.restaurant_name else acc1
  else acc

/-- `SupraMultiSearchEngine._process_feedback`: advance the turn counter,
record the user message, run keyword preservation, then scan the current
results for position-referenced like/dislike feedback. -/
def process_feedback (s : ConversationState) (feedback : String) : ConversationState :=
  let s1 := { s with turn_count := s.turn_count + 1 }
  let s2 := add_user_message s1 feedback "feedback"
  let feedback_lower := pyLower feedback
  let s3 := preserve_dishes_by_keyword s2 feedback
  s3.current_results.foldl (feedback_for_dish s3.current_results feedback_lower) s3

/-- The strong satisfaction phrases of `_detect_satisfaction`. -/
def strong_satisfaction : List String :=
  ["perfect, thank you", "that\x27s perfect", "perfect thanks", "these are perfect",
   "i\x27m satisfied", "that\x27s all", "i\x27m done", "that\x27s enough",
   "order these", "i\x27ll order these", "book these", "reserve these",
   "exactly what i wanted", "this is what i wanted"]

/-- The closing phrases of `_detect_satisfaction`. -/
def closing_phrases : List String :=
  ["thank you, bye", "thanks, goodbye", "that\x27s all, thanks",
   "perfect, goodbye", "done, thank you"]

/-- `SupraMultiSearchEngine._detect_satisfaction`. -/
def detect_satisfaction (user_input : String) : Bool :=
  let user_input_lower := pyStrip (pyLower user_input)
  (strong_satisfaction ++ closing_phrases).any (fun ind => strIn ind user_input_lower)
    || user_input_lower ∈ ["perfect", "done", "finished", "enough"]

/-- One oracle round trip, as seen by `_search_with_context`: either the
model call and `json.loads` produce a parsed object whose `"results"`
entry is a candidate list, or the call fails / its output is unparseable
(any exception, carrying its message). -/
inductive OracleOutcome where
  | ok (results : List Item)
  | fail (message : String)
deriving DecidableEq, Repr

/-- The result dictionary of `_search_with_context`. -/
inductive SearchResult where
  | success (results : List Item)
  | error (message : String)
deriving DecidableEq, Repr

/-- `SupraMultiSearchEngine._remove_duplicates`, with the `seen` set of
already-encountered keys made explicit. -/
def remove_duplicatesAux (seen : List String) : List Item → List Item
  | [] => []
  | r :: rest =>
      if dishKey r ∈ seen then remove_duplicatesAux seen rest
      else r :: remove_duplicatesAux (dishKey r :: seen) rest

/-- `SupraMultiSearchEngine._remove_duplicates`. -/
def remove_duplicates (results : List Item) : List Item :=
  remove_duplicatesAux [] results

/-- The candidate post-processing of `_search_with_context` on a parsed
oracle response: split by advisory status, put preserved-status
candidates first, slice the rest by `limit - len(preserved)` (a Python
slice, so a negative bound drops from the tail), and dedup. -/
def merged_results (results : List Item) (limit : Nat) : List Item :=
  let preserved_results := results.filter (fun r => r.status == "preserved")
  let new_results := results.filter (fun r => !(r.status == "preserved"))
  remove_duplicates
    (preserved_results ++
      pySliceTo new_results ((limit : Int) - (preserved_results.length : Int)))

/-- `SupraMultiSearchEngine._search_with_context`: the restaurant data,
query and image only feed the oracle prompt; on a failed or unparseable
oracle call the whole body is caught and an error result is returned with
the state untouched; on success the merged results are recorded via
`add_assistant_message`. -/
def search_with_context (restaurant_data : String) (s : ConversationState)
    (query image_path : String) (limit : Nat) (o : OracleOutcome) :
    ConversationState × SearchResult :=
  match o with
  | OracleOutcome.fail msg => (s, SearchResult.error msg)
  | OracleOutcome.ok results =>
      let final_results := merged_results results limit
      (add_assistant_message s final_results, SearchResult.success final_results)

/-- The response dictionaries produced by `SupraMultiSearchEngine.chat`. -/
inductive ChatResponse where
  | noResponse (conversation_complete : Bool)
  | satisfied (liked_dishes : List Item) (total_turns : Nat)
  | success (results : List Item)
      (turn_count liked_dishes_count excluded_dishes_count total_suggested : Nat)
  | error (message : String)
deriving DecidableEq, Repr

/-- The pre-oracle mutation of a non-empty, non-satisfied `chat` turn: on
turn 0 the initial query is recorded, otherwise `_process_feedback`
runs. -/
def pre_turn (s : ConversationState) (user_input : String) : ConversationState :=
  if s.turn_count = 0 then
    add_user_message { s with initial_query := user_input } user_input "initial_query"
  else
    process_feedback s user_input

/-- `SupraMultiSearchEngine.chat`. -/
def chat (restaurant_data : String) (s : ConversationState)
    (user_input image_path : String) (limit : Nat) (o : OracleOutcome) :
    ConversationState × ChatResponse :=
  if pyStrip user_input = "" then
    (s, ChatResponse.noResponse s.is_satisfied)
  else if detect_satisfaction user_input then
    ({ s with is_satisfied := true },
     ChatResponse.satisfied s.liked_dishes s.turn_count)
  else
    match search_with_context restaurant_data (pre_turn s user_input)
        user_input image_path limit o with
    | (s2, SearchResult.success results) =>
        (s2, ChatResponse.success results s2.turn_count s2.liked_dishes.length
          s2.excluded_dishes.length s2.all_suggested_dishes.length)
    | (s2, SearchResult.error msg) => (s2, ChatResponse.error msg)

/-- The dictionary returned by
`SupraMultiSearchEngine.get_conversation_state`. -/
structure StateSnapshot where
  turn_count : Nat
  initial_query : String
  user_preferences : String
  liked_dishes : List Item
  excluded_dishes : List String
  current_results_count : Nat
  total_suggested : Nat
  is_satisfied : Bool
deriving DecidableEq, Repr

/-- `SupraMultiSearchEngine.get_conversation_state`. -/
def get_conversation_state (s : ConversationState) : StateSnapshot :=
  { turn_count := s.turn_count
    initial_query := s.initial_query
    user_preferences := s.user_preferences
    liked_dishes := s.liked_dishes
    excluded_dishes := s.excluded_dishes
    current_results_count := s.current_results.length
    total_suggested := s.all_suggested_dishes.length
    is_satisfied := s.is_satisfied }

/-- `SupraMultiSearchEngine.is_conversation_active`. -/
def is_conversation_active (s : ConversationState) : Bool :=
  !s.is_satisfied

/-- `SupraMultiSearchEngine.start_new_conversation`. -/
def start_new_conversation (preferences : String) : ConversationState :=
  { initialState with user_preferences := preferences }

/-- One caller-visible `chat` invocation: the turn text, optional image
path, the per-call limit, and the outcome of the oracle round trip the
engine would make on this turn. -/
structure TurnInput where
  user_input : String
  image_path : String
  limit : Nat
  oracle : OracleOutcome
deriving Repr

/-- The state transition of one `chat` call. -/
def sessionStep (restaurant_data : String) (s : ConversationState)
    (t : TurnInput) : ConversationState :=
  (chat restaurant_data s t.user_input t.image_path t.limit t.oracle).1

/-- The session state after a whole sequence of `chat` calls on a fresh
engine. -/
def runSession (restaurant_data : String) (ts : List TurnInput) : ConversationState :=
  ts.foldl (sessionStep restaurant_data) initialState

/-- Concrete fixture: a soup dish at restaurant R1, key `"R1_Soup"`. -/
def soupItem : Item :=
  { restaurant_id := "1", restaurant_name := "R1", dish_name := "Soup"
    dish_price := 5, reason := "", status := "new" }

/-- Concrete fixtures: two preserved-status and two new-status candidates
(the limit-cap example of the specification). -/
def dishA : Item :=
  { restaurant_id := "1", restaurant_name := "R1", dish_name := "A"
    dish_price := 10, reason := "", status := "preserved" }

def dishB : Item :=
  { restaurant_id := "1", restaurant_name := "R1", dish_name := "B"
    dish_price := 11, reason := "", status := "preserved" }

def dishC : Item :=
  { restaurant_id := "2", restaurant_name := "R2", dish_name := "C"
    dish_price := 12, reason := "", status := "new" }

def dishD : Item :=
  { restaurant_id := "2", restaurant_name := "R2", dish_name := "D"
    dish_price := 13, reason := "", status := "new" }

/-- Concrete fixtures: four distinct preserved-status candidates. -/
def presP1 : Item :=
  { restaurant_id := "1", restaurant_name := "R1", dish_name := "P1"
    dish_price := 1, reason := "", status := "preserved" }

def presP2 : Item :=
  { restaurant_id := "1", restaurant_name := "R1", dish_name := "P2"
    dish_price := 2, reason := "", status := "preserved" }

def presP3 : Item :=
  { restaurant_id := "1", restaurant_name := "R1", dish_name := "P3"
    dish_price := 3, reason := "", status := "preserved" }

def presP4 : Item :=
  { restaurant_id := "1", restaurant_name := "R1", dish_name := "P4"
    dish_price := 4, reason := "", status := "preserved" }

/-- Concrete fixture: a session whose current selection is the soup. -/
def selSoupState : ConversationState :=
  { initialState with current_results := [soupItem] }

/-- Concrete fixture: a session where the soup key has been excluded. -/
def excludedSoupState : ConversationState :=
  { initialState with excluded_dishes := ["R1_Soup"] }

/-- Concrete fixture: a terminal (satisfied) session. -/
def terminalState : ConversationState :=
  { initialState with is_satisfied := true }

/-! ## Helper lemmas -/

/-- A left fold preserves any property preserved by each step. -/
theorem foldl_preserve {α β : Type} (P : α → Prop) (f : α → β → α)
    (h : ∀ a b, P a → P (f a b)) : ∀ (l : List β) (a : α), P a → P (l.foldl f a) := by
  intro l
  induction l with
  | nil => intro a ha; exact ha
  | cons x xs ih => intro a ha; exact ih _ (h a x ha)

theorem like_dish_current (s : ConversationState) (d : Item) :
    (like_dish s d).current_results = s.current_results := by
  unfold like_dish; split <;> rfl

theorem like_dish_excluded (s : ConversationState) (d : Item) :
    (like_dish s d).excluded_dishes = s.excluded_dishes := by
  unfold like_dish; split <;> rfl

theorem like_dish_turn_count (s : ConversationState) (d : Item) :
    (like_dish s d).turn_count = s.turn_count := by
  unfold like_dish; split <;> rfl

theorem exclude_dish_current (s : ConversationState) (dn rn : String) :
    (exclude_dish s dn rn).current_results = s.current_results := by
  unfold exclude_dish; dsimp only; split <;> rfl

theorem exclude_dish_turn_count (s : ConversationState) (dn rn : String) :
    (exclude_dish s dn rn).turn_count = s.turn_count := by
  unfold exclude_dish; dsimp only; split <;> rfl

theorem preserve_matching_current (terms : List String) (s : ConversationState) :
    (preserve_matching terms s).current_results = s.current_results := by
  unfold preserve_matching
  refine foldl_preserve (fun (a : ConversationState) => a.current_results = s.current_results) _ ?_ _ _ rfl
  intro a r ha
  dsimp only
  split
  · rw [like_dish_current]; exact ha
  · exact ha

theorem preserve_for_mapping_current (fl : String) (s : ConversationState)
    (m : String × List String) :
    (preserve_for_mapping fl s m).current_results = s.current_results := by
  unfold preserve_for_mapping
  split
  · exact preserve_matching_current m.2 s
  · rfl

theorem preserve_for_keyword_current (fl : String) (s : ConversationState) (pw : String) :
    (preserve_for_keyword fl s pw).current_results = s.current_results := by
  unfold preserve_for_keyword
  split
  · refine foldl_preserve (fun (a : ConversationState) => a.current_results = s.current_results) _ ?_ _ _ rfl
    intro a m ha
    rw [preserve_for_mapping_current]; exact ha
  · rfl

theorem preserve_dishes_current (s : ConversationState) (f : String) :
    (preserve_dishes_by_keyword s f).current_results = s.current_results := by
  unfold preserve_dishes_by_keyword
  dsimp only
  have h1 : ((preserve_keywords.foldl (preserve_for_keyword (pyLower f)) s)).current_results
      = s.current_results := by
    refine foldl_preserve (fun (a : ConversationState) => a.current_results = s.current_results) _ ?_ _ _ rfl
    intro a pw ha
    rw [preserve_for_keyword_current]; exact ha
  split
  · refine foldl_preserve
      (fun (a : ConversationState) => a.current_results = s.current_results) _ ?_ _ _ h1
    intro a r ha
    rw [like_dish_current]; exact ha
  · exact h1

theorem feedback_for_dish_current (crs : List Item) (fl : String)
    (a : ConversationState) (r : Item) :
    (feedback_for_dish crs fl a r).current_results = a.current_results := by
  unfold feedback_for_dish
  dsimp only
  split
  · split
    · split <;> simp [exclude_dish_current, like_dish_current]
    · split <;> simp [exclude_dish_current, like_dish_current]
  · rfl

theorem process_feedback_current (s : ConversationState) (f : String) :
    (process_feedback s f).current_results = s.current_results := by
  unfold process_feedback
  dsimp only
  have h3 : (preserve_dishes_by_keyword
      (add_user_message { s with turn_count := s.turn_count + 1 } f "feedback")
      f).current_results = s.current_results := by
    rw [preserve_dishes_current]; rfl
  refine foldl_preserve (fun (a : ConversationState) => a.current_results = s.current_results) _ ?_ _ _ h3
  intro a r ha
  rw [feedback_for_dish_current]; exact ha

theorem pre_turn_current (s : ConversationState) (input : String) :
    (pre_turn s input).current_results = s.current_results := by
  unfold pre_turn
  split
  · rfl
  · exact process_feedback_current s input

theorem pre_turn_turn_count_zero (s : ConversationState) (input : String)
    (h : s.turn_count = 0) : (pre_turn s input).turn_count = 0 := by
  unfold pre_turn
  rw [if_pos h]
  exact h

theorem remove_duplicatesAux_sublist (rs : List Item) : ∀ (seen : List String),
    List.Sublist (remove_duplicatesAux seen rs) rs := by
  induction rs with
  | nil => intro seen; simp [remove_duplicatesAux]
  | cons r rest ih =>
      intro seen
      simp only [remove_duplicatesAux]
      by_cases h : dishKey r ∈ seen
      · rw [if_pos h]
        exact List.Sublist.cons r (ih seen)
      · rw [if_neg h]
        exact List.Sublist.cons₂ r (ih (dishKey r :: seen))

theorem remove_duplicatesAux_keys (rs : List Item) : ∀ (seen : List String),
    ((remove_duplicatesAux seen rs).map dishKey).Nodup
    ∧ ∀ k ∈ (remove_duplicatesAux seen rs).map dishKey, k ∉ seen := by
  induction rs with
  | nil => intro seen; simp [remove_duplicatesAux]
  | cons r rest ih =>
      intro seen
      simp only [remove_duplicatesAux]
      by_cases h : dishKey r ∈ seen
      · rw [if_pos h]; exact ih seen
      · rw [if_neg h]
        obtain ⟨hnd, hfresh⟩ := ih (dishKey r :: seen)
        refine ⟨?_, ?_⟩
        · simp only [List.map_cons, List.nodup_cons]
          exact ⟨fun hmem => (hfresh _ hmem) (List.mem_cons_self _ _), hnd⟩
        · intro k hk
          simp only [List.map_cons, List.mem_cons] at hk
          rcases hk with rfl | hk
          · exact h
          · exact fun hks => (hfresh k hk) (List.mem_cons_of_mem _ hks)

theorem remove_duplicatesAux_find (rs : List Item) : ∀ (seen : List String) (k : String),
    k ∉ seen →
    List.find? (fun r => dishKey r == k) (remove_duplicatesAux seen rs)
      = List.find? (fun r => dishKey r == k) rs := by
  induction rs with
  | nil => intro seen k _; rfl
  | cons r rest ih =>
      intro seen k hk
      simp only [remove_duplicatesAux]
      by_cases h : dishKey r ∈ seen
      · rw [if_pos h]
        have hne : (dishKey r == k) = false :=
          beq_eq_false_iff_ne.mpr (fun he => hk (he ▸ h))
        simp only [List.find?, hne]
        exact ih seen k hk
      · rw [if_neg h]
        by_cases heq : (dishKey r == k) = true
        · simp only [List.find?, heq]
        · have hne : (dishKey r == k) = false := by
            cases hb : (dishKey r == k)
            · rfl
            · exact absurd hb heq
          simp only [List.find?, hne]
          refine ih _ k ?_
          intro hmem
          rcases List.mem_cons.mp hmem with rfl | hmem2
          · exact heq (beq_self_eq_true _)
          · exact hk hmem2

theorem remove_duplicates_sublist (l : List Item) :
    List.Sublist (remove_duplicates l) l :=
  remove_duplicatesAux_sublist l []

theorem remove_duplicates_keys_nodup (l : List Item) :
    ((remove_duplicates l).map dishKey).Nodup :=
  (remove_duplicatesAux_keys l []).1

theorem remove_duplicates_find (l : List Item) (k : String) :
    List.find? (fun r => dishKey r == k) (remove_duplicates l)
      = List.find? (fun r => dishKey r == k) l :=
  remove_duplicatesAux_find l [] k (List.not_mem_nil k)

theorem pySliceTo_eq_take {α : Type} (l : List α) (n : Int) :
    ∃ m, pySliceTo l n = l.take m := by
  unfold pySliceTo
  split
  · exact ⟨n.toNat, rfl⟩
  · exact ⟨l.length - (-n).toNat, rfl⟩

theorem pySliceTo_sublist {α : Type} (l : List α) (n : Int) :
    List.Sublist (pySliceTo l n) l := by
  obtain ⟨m, hm⟩ := pySliceTo_eq_take l n
  rw [hm]
  exact List.take_sublist m l

theorem pySliceTo_of_le {α : Type} (l : List α) (a b : Nat) (h : b ≤ a) :
    pySliceTo l ((a : Int) - (b : Int)) = l.take (a - b) := by
  unfold pySliceTo
  rw [if_pos (by omega), Int.toNat_sub]

/-- A list is pairwise related when the relation holds for every pair of
members. -/
theorem pairwise_of_all {α : Type} {R : α → α → Prop} :
    ∀ (l : List α), (∀ a ∈ l, ∀ b ∈ l, R a b) → l.Pairwise R := by
  intro l
  induction l with
  | nil => intro _; exact List.Pairwise.nil
  | cons x xs ih =>
      intro h
      refine List.Pairwise.cons ?_ (ih ?_)
      · intro b hb
        exact h x (List.mem_cons_self x xs) b (List.mem_cons_of_mem x hb)
      · intro a ha b hb
        exact h a (List.mem_cons_of_mem x ha) b (List.mem_cons_of_mem x hb)

theorem chat_of_empty (rd : String) (s : ConversationState) (input img : String)
    (limit : Nat) (o : OracleOutcome) (h : pyStrip input = "") :
    chat rd s input img limit o = (s, ChatResponse.noResponse s.is_satisfied) := by
  unfold chat
  rw [if_pos h]

theorem chat_of_satisfaction (rd : String) (s : ConversationState) (input img : String)
    (limit : Nat) (o : OracleOutcome) (hne : ¬ pyStrip input = "")
    (hsat : detect_satisfaction input = true) :
    chat rd s input img limit o
      = ({ s with is_satisfied := true },
         ChatResponse.satisfied s.liked_dishes s.turn_count) := by
  unfold chat
  rw [if_neg hne, if_pos hsat]

theorem chat_of_fail (rd : String) (s : ConversationState) (input img : String)
    (limit : Nat) (msg : String) (hne : ¬ pyStrip input = "")
    (hsat : detect_satisfaction input = false) :
    chat rd s input img limit (OracleOutcome.fail msg)
      = (pre_turn s input, ChatResponse.error msg) := by
  unfold chat
  rw [if_neg hne, if_neg (by simp [hsat])]
  rfl

theorem chat_of_ok (rd : String) (s : ConversationState) (input img : String)
    (limit : Nat) (results : List Item) (hne : ¬ pyStrip input = "")
    (hsat : detect_satisfaction input = false) :
    chat rd s input img limit (OracleOutcome.ok results)
      = (add_assistant_message (pre_turn s input) (merged_results results limit),
         ChatResponse.success (merged_results results limit)
           (add_assistant_message (pre_turn s input) (merged_results results limit)).turn_count
           (add_assistant_message (pre_turn s input)
             (merged_results results limit)).liked_dishes.length
           (add_assistant_message (pre_turn s input)
             (merged_results results limit)).excluded_dishes.length
           (add_assistant_message (pre_turn s input)
             (merged_results results limit)).all_suggested_dishes.length) := by
  unfold chat
  rw [if_neg hne, if_neg (by simp [hsat])]
  rfl

theorem chat_turn_count_zero (rd : String) (s : ConversationState) (input img : String)
    (limit : Nat) (o : OracleOutcome) (h : s.turn_count = 0) :
    ((chat rd s input img limit o).1).turn_count = 0 := by
  by_cases h1 : pyStrip input = ""
  · rw [chat_of_empty rd s input img limit o h1]
    exact h
  · by_cases h2 : detect_satisfaction input = true
    · rw [chat_of_satisfaction rd s input img limit o h1 h2]
      exact h
    · have h2f : detect_satisfaction input = false := by
        cases hb : detect_satisfaction input
        · rfl
        · exact absurd hb h2
      cases o with
      | fail m =>
          rw [chat_of_fail rd s input img limit m h1 h2f]
          exact pre_turn_turn_count_zero s input h
      | ok results =>
          rw [chat_of_ok rd s input img limit results h1 h2f]
          exact pre_turn_turn_count_zero s input h

theorem chat_current_cases (rd : String) (s : ConversationState) (input img : String)
    (limit : Nat) (o : OracleOutcome) :
    ((chat rd s input img limit o).1).current_results = s.current_results
    ∨ ∃ l, ((chat rd s input img limit o).1).current_results = remove_duplicates l := by
  by_cases h1 : pyStrip input = ""
  · left
    rw [chat_of_empty rd s input img limit o h1]
  · by_cases h2 : detect_satisfaction input = true
    · left
      rw [chat_of_satisfaction rd s input img limit o h1 h2]
    · have h2f : detect_satisfaction input = false := by
        cases hb : detect_satisfaction input
        · rfl
        · exact absurd hb h2
      cases o with
      | fail m =>
          left
          rw [chat_of_fail rd s input img limit m h1 h2f]
          exact pre_turn_current s input
      | ok results =>
          right
          refine ⟨results.filter (fun r => r.status == "preserved") ++
              pySliceTo (results.filter (fun r => !(r.status == "preserved")))
                ((limit : Int)
                  - ((results.filter (fun r => r.status == "preserved")).length : Int)), ?_⟩
          rw [chat_of_ok rd s input img limit results h1 h2f]
          rfl

theorem runSession_turn_count (rd : String) (ts : List TurnInput) :
    (runSession rd ts).turn_count = 0 := by
  unfold runSession
  refine foldl_preserve (fun (a : ConversationState) => a.turn_count = 0) _ ?_ _ _ rfl
  intro a t ha
  exact chat_turn_count_zero rd a t.user_input t.image_path t.limit t.oracle ha

theorem runSession_keys_nodup (rd : String) (ts : List TurnInput) :
    (((runSession rd ts).current_results).map dishKey).Nodup := by
  unfold runSession
  refine foldl_preserve
    (fun (a : ConversationState) => ((a.current_results).map dishKey).Nodup) _ ?_ _ _ ?_
  · intro a t ha
    rcases chat_current_cases rd a t.user_input t.image_path t.limit t.oracle with
      hsame | ⟨l, hl⟩
    · unfold sessionStep
      rw [hsame]
      exact ha
    · unfold sessionStep
      rw [hl]
      exact remove_duplicates_keys_nodup l
  · simp [initialState]

/-! ## Claims -/

/-- C1 (amended): if the oracle call fails during a non-empty,
non-satisfied chat turn of a reachable session (turn counter 0), the call
returns an error result and the turn counter, liked/excluded/suggested
dish lists and current results are unchanged — but the session is still
mutated before the oracle call: the initial query is overwritten with the
turn text and the user message is appended to the conversation
history. -/
theorem C1_oracle_failure_state (rd : String) (s : ConversationState)
    (input img : String) (limit : Nat) (msg : String)
    (h0 : s.turn_count = 0) (hne : ¬ pyStrip input = "")
    (hsat : detect_satisfaction input = false) :
    chat rd s input img limit (OracleOutcome.fail msg)
      = ({ s with
            initial_query := input
            conversation_history :=
              s.conversation_history ++ [ChatMsg.user input "initial_query" s.turn_count] },
         ChatResponse.error msg)
    ∧ ((chat rd s input img limit (OracleOutcome.fail msg)).1).turn_count = s.turn_count
    ∧ ((chat rd s input img limit (OracleOutcome.fail msg)).1).liked_dishes = s.liked_dishes
    ∧ ((chat rd s input img limit (OracleOutcome.fail msg)).1).excluded_dishes
        = s.excluded_dishes
    ∧ ((chat rd s input img limit (OracleOutcome.fail msg)).1).all_suggested_dishes
        = s.all_suggested_dishes
    ∧ ((chat rd s input img limit (OracleOutcome.fail msg)).1).current_results
        = s.current_results := by
  have h := chat_of_fail rd s input img limit msg hne hsat
  have hpre : pre_turn s input
      = { s with
            initial_query := input
            conversation_history :=
              s.conversation_history ++ [ChatMsg.user input "initial_query" s.turn_count] } := by
    unfold pre_turn
    rw [if_pos h0]
    rfl
  rw [h, hpre]
  exact ⟨rfl, rfl, rfl, rfl, rfl, rfl⟩

/-- Witness for C1 at a concrete failed first turn. -/
theorem C1_witness :
    chat "" initialState "khachapuri" "" 10 (OracleOutcome.fail "network down")
      = ({ initialState with
            initial_query := "khachapuri"
            conversation_history := [ChatMsg.user "khachapuri" "initial_query" 0] },
         ChatResponse.error "network down") :=
  (C1_oracle_failure_state "" initialState "khachapuri" "" 10 "network down"
    rfl (by decide) (by decide)).1

/-- C1 counterexample: on a concrete failed first turn the call returns an
error, yet `get_conversation_state` before and after differ (the initial
query has been recorded), refuting the claimed non-mutation of the
session. -/
theorem C1_counterexample :
    (chat "" initialState "khachapuri" "" 10 (OracleOutcome.fail "network down")).2
        = ChatResponse.error "network down"
    ∧ get_conversation_state
        (chat "" initialState "khachapuri" "" 10 (OracleOutcome.fail "network down")).1
        ≠ get_conversation_state initialState := by
  exact ⟨by decide, by decide⟩

/-- C2 (code bug): the turn counter of a session driven through `chat`
never advances — it is 0 after every sequence of chat calls, because the
only increment sits in `_process_feedback`, which is reached only when the
counter is already nonzero; in particular a successful non-terminal first
turn leaves the counter at 0 instead of making it strictly greater. -/
theorem C2_turn_count_never_advances :
    (∀ (rd : String) (ts : List TurnInput), (runSession rd ts).turn_count = 0)
    ∧ (chat "" initialState "I want khachapuri" "" 10 (OracleOutcome.ok [soupItem])).2
        = ChatResponse.success [soupItem] 0 0 0 1
    ∧ ((chat "" initialState "I want khachapuri" "" 10 (OracleOutcome.ok [soupItem])).1).turn_count
        = 0 :=
  ⟨fun rd ts => runSession_turn_count rd ts, by decide, by decide⟩

/-- C3 (amended): `exclude_dish` appends the key to the excluded list iff
it is not already there, is idempotent, and leaves the current selection
untouched (it does not strip matching items); moreover the merge of
oracle candidates ignores the excluded list entirely — the merged
selection is the same whatever the excluded list holds — so an excluded
key can be reintroduced by a later merge. -/
theorem C3_exclusion_not_enforced (s : ConversationState) (dn rn : String)
    (rd q img : String) (limit : Nat) (results : List Item) (e : List String) :
    ((exclude_dish s dn rn).excluded_dishes
        = if (rn ++ "_" ++ dn) ∈ s.excluded_dishes then s.excluded_dishes
          else s.excluded_dishes ++ [rn ++ "_" ++ dn])
    ∧ (exclude_dish s dn rn).current_results = s.current_results
    ∧ exclude_dish (exclude_dish s dn rn) dn rn = exclude_dish s dn rn
    ∧ ((search_with_context rd { s with excluded_dishes := e } q img limit
          (OracleOutcome.ok results)).1).current_results
        = ((search_with_context rd s q img limit
          (OracleOutcome.ok results)).1).current_results := by
  refine ⟨?_, exclude_dish_current s dn rn, ?_, rfl⟩
  · unfold exclude_dish
    dsimp only
    by_cases h : (rn ++ "_" ++ dn) ∈ s.excluded_dishes
    · rw [if_pos h, if_pos h]
    · rw [if_neg h, if_neg h]
  · by_cases h : (rn ++ "_" ++ dn) ∈ s.excluded_dishes
    · have h1 : exclude_dish s dn rn = s := by
        unfold exclude_dish
        dsimp only
        rw [if_pos h]
      rw [h1]
      exact h1
    · have h1 : exclude_dish s dn rn
          = { s with excluded_dishes := s.excluded_dishes ++ [rn ++ "_" ++ dn] } := by
        unfold exclude_dish
        dsimp only
        rw [if_neg h]
      rw [h1]
      unfold exclude_dish
      dsimp only
      rw [if_pos (by simp)]

/-- C3 counterexample: excluding the soup neither strips it from a
selection that holds it, nor prevents a later merge from reintroducing
it — the merged selection contains the very key that was excluded. -/
theorem C3_counterexample :
    (exclude_dish selSoupState "Soup" "R1").current_results = [soupItem]
    ∧ (exclude_dish initialState "Soup" "R1").excluded_dishes = ["R1_Soup"]
    ∧ ((search_with_context "" (exclude_dish initialState "Soup" "R1") "soup please" "" 10
          (OracleOutcome.ok [soupItem])).1).current_results = [soupItem]
    ∧ dishKey soupItem = "R1_Soup" := by
  exact ⟨by decide, by decide, by decide, by decide⟩

/-- C4 (amended): when the oracle's preserved-status candidates number at
most `limit`, a successful turn yields a selection of at most `limit`
items, obtained by keeping the whole preserved group and truncating only
the tail of the new group before dedup; preserved-status candidates are
never truncated, so when they exceed the limit the cap is violated
instead (see the counterexample). -/
theorem C4_limit_cap (rd : String) (s : ConversationState) (input img : String)
    (limit : Nat) (results : List Item)
    (hne : ¬ pyStrip input = "") (hsat : detect_satisfaction input = false)
    (hp : (results.filter (fun r => r.status == "preserved")).length ≤ limit) :
    ((chat rd s input img limit (OracleOutcome.ok results)).1).current_results
        = remove_duplicates
            (results.filter (fun r => r.status == "preserved")
              ++ (results.filter (fun r => !(r.status == "preserved"))).take
                  (limit - (results.filter (fun r => r.status == "preserved")).length))
    ∧ ((chat rd s input img limit (OracleOutcome.ok results)).1).current_results.length ≤ limit
    ∧ (∃ tc lc ec tsg,
        (chat rd s input img limit (OracleOutcome.ok results)).2
          = ChatResponse.success
              ((chat rd s input img limit (OracleOutcome.ok results)).1).current_results
              tc lc ec tsg) := by
  have hchat := chat_of_ok rd s input img limit results hne hsat
  have hfinal : ((chat rd s input img limit (OracleOutcome.ok results)).1).current_results
      = merged_results results limit := by
    rw [hchat]
    rfl
  have hform : merged_results results limit
      = remove_duplicates
          (results.filter (fun r => r.status == "preserved")
            ++ (results.filter (fun r => !(r.status == "preserved"))).take
                (limit - (results.filter (fun r => r.status == "preserved")).length)) := by
    unfold merged_results
    dsimp only
    rw [pySliceTo_of_le _ _ _ hp]
  have hmin := Nat.min_le_left
      (limit - (results.filter (fun r => r.status == "preserved")).length)
      ((results.filter (fun r => !(r.status == "preserved"))).length)
  have hlen1 := (remove_duplicates_sublist
      (results.filter (fun r => r.status == "preserved")
        ++ (results.filter (fun r => !(r.status == "preserved"))).take
            (limit - (results.filter (fun r => r.status == "preserved")).length))).length_le
  rw [List.length_append, List.length_take] at hlen1
  refine ⟨by rw [hfinal, hform], ?_, ?_⟩
  · rw [hfinal, hform]
    omega
  · refine ⟨(add_assistant_message (pre_turn s input)
        (merged_results results limit)).turn_count,
      (add_assistant_message (pre_turn s input)
        (merged_results results limit)).liked_dishes.length,
      (add_assistant_message (pre_turn s input)
        (merged_results results limit)).excluded_dishes.length,
      (add_assistant_message (pre_turn s input)
        (merged_results results limit)).all_suggested_dishes.length, ?_⟩
    rw [hchat]
    rfl

/-- Witness for C4 at the limit-cap example of the specification:
limit 3, candidates A and B preserved, C and D new, merged selection has
at most 3 items. -/
theorem C4_witness :
    ((chat "" initialState "khinkali please" "" 3
        (OracleOutcome.ok [dishA, dishB, dishC, dishD])).1).current_results.length ≤ 3 :=
  (C4_limit_cap "" initialState "khinkali please" "" 3 [dishA, dishB, dishC, dishD]
    (by decide) (by decide) (by decide)).2.1

/-- C4 counterexample: with limit 3 and four distinct preserved-status
candidates the turn succeeds and the merged selection keeps all four
items, exceeding the limit. -/
theorem C4_counterexample :
    ((chat "" initialState "four please" "" 3
        (OracleOutcome.ok [presP1, presP2, presP3, presP4])).1).current_results
      = [presP1, presP2, presP3, presP4]
    ∧ ¬ ((chat "" initialState "four please" "" 3
        (OracleOutcome.ok [presP1, presP2, presP3, presP4])).1).current_results.length ≤ 3 := by
  exact ⟨by decide, by decide⟩

/-- C5: after every sequence of chat turns the selection holds no two
items with the same `(restaurant_name, dish_name)` identity pair, and the
dedup pass keeps exactly the first occurrence of each key (the first
match for any key in the deduped candidate list is the first match in the
original list). -/
theorem C5_dedup_invariant :
    (∀ (rd : String) (ts : List TurnInput),
      ((runSession rd ts).current_results).Pairwise
        (fun a b => ¬ (a.restaurant_name = b.restaurant_name ∧ a.dish_name = b.dish_name)))
    ∧ (∀ (l : List Item) (k : String),
        List.find? (fun r => dishKey r == k) (remove_duplicates l)
          = List.find? (fun r => dishKey r == k) l) := by
  constructor
  · intro rd ts
    have hnd := runSession_keys_nodup rd ts
    have hp : ((runSession rd ts).current_results).Pairwise
        (fun a b => dishKey a ≠ dishKey b) := List.pairwise_map.mp hnd
    refine hp.imp ?_
    intro a b hne hab
    refine hne ?_
    unfold dishKey
    rw [hab.1, hab.2]
  · exact remove_duplicates_find

/-- C6 (amended): a satisfaction turn sets the terminal flag and returns a
`satisfied` response carrying the liked-dishes list and the turn counter
(the code computes no total price and does not return the current
selection), while the current selection itself is unchanged. -/
theorem C6_satisfied_response (rd : String) (s : ConversationState)
    (input img : String) (limit : Nat) (o : OracleOutcome)
    (hne : ¬ pyStrip input = "") (hsat : detect_satisfaction input = true) :
    chat rd s input img limit o
      = ({ s with is_satisfied := true },
         ChatResponse.satisfied s.liked_dishes s.turn_count)
    ∧ ((chat rd s input img limit o).1).current_results = s.current_results
    ∧ ((chat rd s input img limit o).1).is_satisfied = true := by
  have h := chat_of_satisfaction rd s input img limit o hne hsat
  rw [h]
  exact ⟨rfl, rfl, rfl⟩

/-- Witness for C6 at a concrete satisfaction turn. -/
theorem C6_witness :
    chat "" selSoupState "perfect, thank you" "" 10 (OracleOutcome.ok [])
      = ({ selSoupState with is_satisfied := true }, ChatResponse.satisfied [] 0) :=
  (C6_satisfied_response "" selSoupState "perfect, thank you" "" 10 (OracleOutcome.ok [])
    (by decide) (by decide)).1

/-- C6 counterexample: with a non-empty selection and no liked dishes, the
satisfied response carries the empty liked list, not the current
selection (and the response dictionary built by the code has no total
price entry at all). -/
theorem C6_counterexample :
    (chat "" selSoupState "perfect, thank you" "" 10 (OracleOutcome.ok [])).2
        = ChatResponse.satisfied [] 0
    ∧ selSoupState.current_results = [soupItem]
    ∧ ([] : List Item) ≠ [soupItem] := by
  exact ⟨by decide, by decide, by decide⟩

/-- C7: after any merge of oracle candidates the selection is a
preserved-status prefix followed by non-preserved items (so every
preserved-status item precedes every new-status item), and each of the
two groups of the new selection is an order-preserving subsequence of the
corresponding group of the candidate list (stable partition). -/
theorem C7_preserved_first (rd : String) (s : ConversationState) (q img : String)
    (limit : Nat) (results : List Item) :
    (((search_with_context rd s q img limit
        (OracleOutcome.ok results)).1).current_results).Pairwise
        (fun a b => b.status = "preserved" → a.status = "preserved")
    ∧ List.Sublist
        ((((search_with_context rd s q img limit
            (OracleOutcome.ok results)).1).current_results).filter
          (fun r => r.status == "preserved"))
        (results.filter (fun r => r.status == "preserved"))
    ∧ List.Sublist
        ((((search_with_context rd s q img limit
            (OracleOutcome.ok results)).1).current_results).filter
          (fun r => !(r.status == "preserved")))
        (results.filter (fun r => !(r.status == "preserved"))) := by
  have hcur : ((search_with_context rd s q img limit
      (OracleOutcome.ok results)).1).current_results
      = remove_duplicates
          (results.filter (fun r => r.status == "preserved")
            ++ pySliceTo (results.filter (fun r => !(r.status == "preserved")))
                ((limit : Int)
                  - ((results.filter (fun r => r.status == "preserved")).length : Int))) := rfl
  set P := results.filter (fun r => r.status == "preserved") with hPdef
  set N := results.filter (fun r => !(r.status == "preserved")) with hNdef
  set T := pySliceTo N ((limit : Int) - (P.length : Int)) with hTdef
  have hsubPT : List.Sublist (remove_duplicates (P ++ T)) (P ++ T) :=
    remove_duplicates_sublist (P ++ T)
  have hPmem : ∀ a ∈ P, a.status = "preserved" := by
    intro a ha
    rw [hPdef] at ha
    exact beq_iff_eq.mp (List.mem_filter.mp ha).2
  have hTsubN : List.Sublist T N := by
    rw [hTdef]
    exact pySliceTo_sublist N _
  have hTmem : ∀ b ∈ T, ¬ b.status = "preserved" := by
    intro b hb
    have hbN : b ∈ N := hTsubN.subset hb
    rw [hNdef] at hbN
    have h2 := (List.mem_filter.mp hbN).2
    simp only [Bool.not_eq_eq_eq_not, Bool.not_true, beq_eq_false_iff_ne] at h2
    exact h2
  refine ⟨?_, ?_, ?_⟩
  · rw [hcur]
    refine List.Pairwise.sublist hsubPT ?_
    refine (List.pairwise_append).mpr ⟨?_, ?_, ?_⟩
    · exact pairwise_of_all P (fun a ha b hb hbp => hPmem a ha)
    · exact pairwise_of_all T (fun a ha b hb hbp => absurd hbp (hTmem b hb))
    · intro a ha b hb
      exact fun hbp => hPmem a ha
  · rw [hcur]
    have h1 : List.Sublist
        ((remove_duplicates (P ++ T)).filter (fun r => r.status == "preserved"))
        ((P ++ T).filter (fun r => r.status == "preserved")) := hsubPT.filter _
    have h2 : (P ++ T).filter (fun r => r.status == "preserved") = P := by
      rw [List.filter_append,
          List.filter_eq_self.mpr (fun a ha => beq_iff_eq.mpr (hPmem a ha)),
          List.filter_eq_nil_iff.mpr (fun a ha h => hTmem a ha (beq_iff_eq.mp h)),
          List.append_nil]
    rw [h2] at h1
    exact h1
  · rw [hcur]
    have h1 : List.Sublist
        ((remove_duplicates (P ++ T)).filter (fun r => !(r.status == "preserved")))
        ((P ++ T).filter (fun r => !(r.status == "preserved"))) := hsubPT.filter _
    have h2 : (P ++ T).filter (fun r => !(r.status == "preserved")) = T := by
      rw [List.filter_append,
          List.filter_eq_nil_iff.mpr ?hPside,
          List.filter_eq_self.mpr ?hTside,
          List.nil_append]
      case hPside =>
        intro a ha h
        have := hPmem a ha
        simp [this] at h
      case hTside =>
        intro a ha
        have := hTmem a ha
        simp [this]
    rw [h2] at h1
    rw [hNdef] at hTsubN
    exact h1.trans hTsubN

/-- C8 (amended): in a terminal session a further satisfaction turn
returns the same final selection and leaves the state exactly unchanged,
and `is_conversation_active` is false; the terminal flag does not,
however, block non-satisfaction turns, which still mutate the session. -/
theorem C8_terminal_idempotence (rd : String) (s : ConversationState)
    (input img : String) (limit : Nat) (o : OracleOutcome)
    (hterm : s.is_satisfied = true) (hne : ¬ pyStrip input = "")
    (hsat : detect_satisfaction input = true) :
    chat rd s input img limit o = (s, ChatResponse.satisfied s.liked_dishes s.turn_count)
    ∧ is_conversation_active s = false := by
  have h := chat_of_satisfaction rd s input img limit o hne hsat
  have heta : { s with is_satisfied := true } = s := by
    cases s with
    | mk ch cr ex ld asd up iq tc sat =>
        simp only at hterm
        rw [hterm]
  rw [h, heta]
  refine ⟨rfl, ?_⟩
  unfold is_conversation_active
  rw [hterm]
  rfl

/-- Witness for C8 at a concrete terminal session. -/
theorem C8_witness :
    chat "" terminalState "perfect" "" 10 (OracleOutcome.ok [soupItem])
      = (terminalState, ChatResponse.satisfied [] 0)
    ∧ is_conversation_active terminalState = false :=
  C8_terminal_idempotence "" terminalState "perfect" "" 10 (OracleOutcome.ok [soupItem])
    rfl (by decide) (by decide)

/-- C8 counterexample: a non-satisfaction chat call in the terminal state
still performs a full turn and mutates the session, refuting the claim
that no further mutation occurs once terminal. -/
theorem C8_counterexample :
    terminalState.is_satisfied = true
    ∧ (chat "" terminalState "something spicier" "" 10 (OracleOutcome.ok [soupItem])).1
        ≠ terminalState := by
  exact ⟨by decide, by decide⟩

/-- C9 (amended): `like_dish` inserts the item iff its identity key is not
already among the liked dishes (the excluded set is not consulted), is
idempotent, never removes liked items, and leaves the selection and the
excluded list untouched. -/
theorem C9_preserve_insert (s : ConversationState) (d : Item) :
    ((like_dish s d).liked_dishes
        = if dishKey d ∈ s.liked_dishes.map dishKey then s.liked_dishes
          else s.liked_dishes ++ [d])
    ∧ like_dish (like_dish s d) d = like_dish s d
    ∧ (like_dish s d).current_results = s.current_results
    ∧ (like_dish s d).excluded_dishes = s.excluded_dishes
    ∧ List.Sublist s.liked_dishes (like_dish s d).liked_dishes := by
  refine ⟨?_, ?_, like_dish_current s d, like_dish_excluded s d, ?_⟩
  · unfold like_dish
    by_cases h : dishKey d ∈ s.liked_dishes.map dishKey
    · rw [if_pos h, if_pos h]
    · rw [if_neg h, if_neg h]
  · by_cases h : dishKey d ∈ s.liked_dishes.map dishKey
    · have h1 : like_dish s d = s := by
        unfold like_dish
        rw [if_pos h]
      rw [h1]
      exact h1
    · have h1 : like_dish s d = { s with liked_dishes := s.liked_dishes ++ [d] } := by
        unfold like_dish
        rw [if_neg h]
      rw [h1]
      unfold like_dish
      rw [if_pos (by simp)]
  · unfold like_dish
    by_cases h : dishKey d ∈ s.liked_dishes.map dishKey
    · rw [if_pos h]
    · rw [if_neg h]
      exact List.sublist_append_left s.liked_dishes [d]

/-- C9 counterexample: `like_dish` inserts a dish whose key sits in the
excluded list, refuting the claimed "and not in the excluded set"
insertion condition. -/
theorem C9_counterexample :
    excludedSoupState.excluded_dishes = [dishKey soupItem]
    ∧ excludedSoupState.liked_dishes = []
    ∧ (like_dish excludedSoupState soupItem).liked_dishes = [soupItem] := by
  exact ⟨by decide, by decide, by decide⟩

/-- C10: a first chat call that is a satisfaction phrase makes the fresh
session terminal at once and returns a satisfied response with an empty
liked-dishes selection and turn count 0, for every oracle outcome and
every catalog string — so the oracle is never consulted and the catalog
never read. -/
theorem C10_first_turn_satisfaction :
    ∀ (rd img : String) (limit : Nat) (o : OracleOutcome),
      chat rd initialState "perfect, thank you" img limit o
        = ({ initialState with is_satisfied := true }, ChatResponse.satisfied [] 0)
      ∧ chat rd initialState "perfect" img limit o
        = ({ initialState with is_satisfied := true }, ChatResponse.satisfied [] 0)
      ∧ is_conversation_active { initialState with is_satisfied := true } = false := by
  intro rd img limit o
  refine ⟨?_, ?_, rfl⟩
  · exact chat_of_satisfaction rd initialState "perfect, thank you" img limit o
      (by decide) (by decide)
  · exact chat_of_satisfaction rd initialState "perfect" img limit o
      (by decide) (by decide)

end Supra
